import Mathlib

/-!
Shallow embedding of the WebSocketClient class (src/webSocketClient.ts):
a thin pub/sub adapter over one WebSocket connection. We model JSON
values, the JS truthiness and string coercion the dispatch code relies
on, JSON.stringify as used for the outbound envelope, the mutable client
state (handler registry, readyState, pre-open message queue, log sink),
and a trace semantics: each external stimulus (a method call, the
transport readiness signal, an inbound frame) is a command that steps
the state and emits a list of observable actions (transport sends, log
lines, handler invocations, the onOpen callback).
-/

set_option maxHeartbeats 1000000

/-- A JSON value, the result of JSON.parse on an inbound frame or the
data argument of sendMessage. Numbers are modelled as integers. -/
inductive JsonValue where
  | null : JsonValue
  | bool (b : Bool) : JsonValue
  | num (n : Int) : JsonValue
  | str (s : String) : JsonValue
  | arr (elems : List JsonValue) : JsonValue
  | obj (fields : List (String × JsonValue)) : JsonValue

/-- JS truthiness of a parsed JSON value, as tested by the conditions
in the onmessage handler. -/
def JsonValue.truthy : JsonValue → Bool
  | .null => false
  | .bool b => b
  | .num n => decide (n ≠ 0)
  | .str s => decide (s ≠ "")
  | .arr _ => true
  | .obj _ => true

/-- Lookup of a key in the field list of a parsed JS object. -/
def lookupField : List (String × JsonValue) → String → Option JsonValue
  | [], _ => none
  | p :: rest, k => if p.1 = k then some p.2 else lookupField rest k

/-- JS property access v[k]: a field of an object, undefined (none)
otherwise. Property access on any non-null value returns undefined
rather than throwing, which is why the code guards only against null. -/
def getField : JsonValue → String → Option JsonValue
  | .obj fields, k => lookupField fields k
  | _, _ => none

mutual

/-- JS String() coercion of one array element inside Array.toString:
null becomes the empty string, everything else its String() form. -/
def elemToString : JsonValue → String
  | .null => ""
  | .bool b => if b then "true" else "false"
  | .num n => toString n
  | .str s => s
  | .arr elems => arrToString elems
  | .obj _ => "[object Object]"

/-- JS Array.prototype.toString: elements joined by commas. -/
def arrToString : List JsonValue → String
  | [] => ""
  | [v] => elemToString v
  | v :: w :: rest => elemToString v ++ "," ++ arrToString (w :: rest)

end

/-- JS String() coercion, used for the parsedEvent dispatch key. -/
def jsToString : JsonValue → String
  | .null => "null"
  | v => elemToString v

/-- Hex digit character for JSON string escaping of control characters. -/
def hexDigitChar (n : Nat) : Char :=
  if n < 10 then Char.ofNat (48 + n) else Char.ofNat (87 + n)

/-- JSON.stringify escaping of one character of a string. -/
def escapeChar (c : Char) : String :=
  if c = '"' then "\\\""
  else if c = '\\' then "\\\\"
  else if c = '\n' then "\\n"
  else if c = '\r' then "\\r"
  else if c = '\t' then "\\t"
  else if c = '\x08' then "\\b"
  else if c = '\x0c' then "\\f"
  else if c.toNat < 32 then
    "\\u00" ++ String.singleton (hexDigitChar (c.toNat / 16))
            ++ String.singleton (hexDigitChar (c.toNat % 16))
  else String.singleton c

/-- JSON.stringify of a string: quoted, with characters escaped. -/
def stringifyString (s : String) : String :=
  "\"" ++ String.join (s.data.map escapeChar) ++ "\""

mutual

/-- JSON.stringify of a JSON value. Object fields are emitted in their
stored (insertion) order. -/
def jsonStringify : JsonValue → String
  | .null => "null"
  | .bool b => if b then "true" else "false"
  | .num n => toString n
  | .str s => stringifyString s
  | .arr elems => "[" ++ stringifyElems elems ++ "]"
  | .obj fields => "\x7b" ++ stringifyFields fields ++ "\x7d"

/-- Comma-joined JSON.stringify of array elements. -/
def stringifyElems : List JsonValue → String
  | [] => ""
  | [v] => jsonStringify v
  | v :: w :: rest => jsonStringify v ++ "," ++ stringifyElems (w :: rest)

/-- Comma-joined key:value pairs of an object body. -/
def stringifyFields : List (String × JsonValue) → String
  | [] => ""
  | [p] => stringifyString p.1 ++ ":" ++ jsonStringify p.2
  | p :: q :: rest => stringifyString p.1 ++ ":" ++ jsonStringify p.2 ++ "," ++ stringifyFields (q :: rest)

end

/-- JSON.stringify applied to a possibly-undefined field, as interpolated
into the received-event log line: undefined prints as the text undefined. -/
def stringifyOpt : Option JsonValue → String
  | none => "undefined"
  | some v => jsonStringify v

/-- The serialized outbound envelope built by sendMessage:
JSON.stringify of the two-field object with event first, data second. -/
def envelopeOf (event : String) (data : JsonValue) : String :=
  jsonStringify (.obj [("event", .str event), ("data", data)])

namespace WebSocket

/-- WebSocket.CONNECTING readyState constant. -/
def CONNECTING : Nat := 0

/-- WebSocket.OPEN readyState constant. -/
def OPEN : Nat := 1

end WebSocket

/-- Observable actions the client performs on its collaborators: a call
to the log sink, a transport send, an invocation of the constructor
onOpen callback, an invocation of a registered event handler (by
handler identifier, with the data field of the frame; none stands for
the JS undefined passed when the frame has no data field), or a
TypeError escaping the installed onmessage handler (raised when the
dispatch line calls a non-callable value found through the registry
object and its prototype chain). -/
inductive Obs where
  | log (msg : String)
  | send (msg : String)
  | onOpenCb
  | handlerCall (hid : Nat) (arg : Option JsonValue)
  | raise

/-- The transport sends of an action list, in order. -/
def sentMessages (acts : List Obs) : List String :=
  acts.filterMap fun a => match a with
    | .send m => some m
    | _ => none

/-- The handler invocations of an action list, in order. -/
def handlerCalls (acts : List Obs) : List (Nat × Option JsonValue) :=
  acts.filterMap fun a => match a with
    | .handlerCall h d => some (h, d)
    | _ => none

/-- The onOpen callback invocations of an action list. -/
def onOpenCalls (acts : List Obs) : List Obs :=
  acts.filter fun a => match a with
    | .onOpenCb => true
    | _ => false

/-- The TypeErrors of an action list that escape the onmessage handler. -/
def raisedErrors (acts : List Obs) : List Obs :=
  acts.filter fun a => match a with
    | .raise => true
    | _ => false

/-- Own-property table update for an ordinary assignment on the events
object: replace in place if the key exists, append otherwise. -/
def insertHandler : List (String × Nat) → String → Nat → List (String × Nat)
  | [], k, v => [(k, v)]
  | p :: rest, k, v => if p.1 = k then (k, v) :: rest else p :: insertHandler rest k v

/-- Own-property lookup on the events object. -/
def lookupHandler : List (String × Nat) → String → Option Nat
  | [], _ => none
  | p :: rest, k => if p.1 = k then some p.2 else lookupHandler rest k

/-- Own-property removal, the effect of the JS delete operator: drop
the own entry for the key, leave everything else, never touch the
prototype. -/
def eraseHandler : List (String × Nat) → String → List (String × Nat)
  | [], _ => []
  | p :: rest, k => if p.1 = k then eraseHandler rest k else p :: eraseHandler rest k

/-- Own property names of Object.prototype that are functions safe to
invoke with one argument and the events object as receiver: they return
normally whatever the argument is. -/
def objHarmlessKeys : List String :=
  ["constructor", "hasOwnProperty", "isPrototypeOf", "propertyIsEnumerable",
   "toLocaleString", "toString", "valueOf", "__lookupGetter__", "__lookupSetter__"]

/-- Own property names of Object.prototype that throw a TypeError when
invoked with one argument (the accessor-defining methods require a
callable second argument, which the dispatch call never supplies). -/
def objThrowingKeys : List String :=
  ["__defineGetter__", "__defineSetter__"]

/-- The property names of Object.prototype that a lookup on the events
object can reach through the prototype chain even though no handler was
ever registered. -/
def isObjProtoKey (k : String) : Bool :=
  k == "__proto__" || objThrowingKeys.contains k || objHarmlessKeys.contains k

/-- Property names found through a handler function once it has become
the prototype of the events object (Function.prototype members, and its
shadowing toString): each throws a TypeError when invoked with, or
accessed on, the non-callable events object as receiver. -/
def funcThrowingKeys : List String :=
  ["apply", "bind", "call", "toString", "arguments", "caller"]

/-- What a property read on the events object can produce, classified
by how the dispatch line behaves when it then invokes the value: a
registered handler function, a plain non-callable object (invoking it
throws), an inherited built-in that returns normally, an inherited
member that throws, or undefined. -/
inductive PropValue where
  | handlerFn (hid : Nat)
  | plainObject
  | harmlessFn
  | throwingFn
  | undefinedVal

/-- The handler registry: the plain JS object this.events. The field
own is its table of own enumerable data properties (event name to
handler identifier). The field protoHandler records the prototype of
the object: none while it is still Object.prototype, and some h once an
assignment to the key __proto__ has run the inherited accessor and
rebound the prototype to handler function h. -/
structure EventsObject where
  own : List (String × Nat)
  protoHandler : Option Nat

/-- Property read this.events[k], walking own properties and then the
prototype chain. With a rebound prototype (a handler function), the own
function properties length and name and the inherited constructor are
not modelled, because their values depend on the concrete handler
function or frame data; no theorem below depends on those keys in that
state. -/
def EventsObject.get (ev : EventsObject) (k : String) : PropValue :=
  match lookupHandler ev.own k with
  | some h => .handlerFn h
  | none =>
    if k = "__proto__" then
      match ev.protoHandler with
      | some h => .handlerFn h
      | none => .plainObject
    else
      match ev.protoHandler with
      | some _ =>
        if funcThrowingKeys.contains k || objThrowingKeys.contains k then .throwingFn
        else if objHarmlessKeys.contains k && !(k == "constructor") then .harmlessFn
        else .undefinedVal
      | none =>
        if objThrowingKeys.contains k then .throwingFn
        else if objHarmlessKeys.contains k then .harmlessFn
        else .undefinedVal

/-- Property assignment this.events[k] = h. The key __proto__ never
exists as an own property here, so that assignment runs the inherited
accessor and rebinds the prototype of the events object to the handler
function instead of creating an entry; every other key creates or
replaces an own property. -/
def EventsObject.assign (ev : EventsObject) (k : String) (h : Nat) : EventsObject :=
  if k = "__proto__" then { ev with protoHandler := some h }
  else { ev with own := insertHandler ev.own k h }

/-- Property deletion delete this.events[k]: removes the own entry if
present and otherwise does nothing; in particular it never restores a
rebound prototype, since __proto__ is not an own property. -/
def EventsObject.del (ev : EventsObject) (k : String) : EventsObject :=
  { ev with own := eraseHandler ev.own k }

/-- The dispatch line of the onmessage handler, given the value the
property read produced: the if-guard skips falsy undefined, a handler
function is invoked with the data field, and invoking a plain object or
an inherited throwing member raises a TypeError out of the handler. -/
def dispatchActs (pv : PropValue) (d : Option JsonValue) : List Obs :=
  match pv with
  | .handlerFn h => [Obs.handlerCall h d]
  | .plainObject => [Obs.raise]
  | .harmlessFn => []
  | .throwingFn => [Obs.raise]
  | .undefinedVal => []

/-- Mutable state of one WebSocketClient instance: the handler registry
(the plain JS events object), the readyState of the owned WebSocket,
the preOpenMessages buffer, whether a log sink is installed, whether
the constructor received an onOpen callback, and the socket url used
for the open log line. -/
structure WebSocketClient where
  events : EventsObject
  readyState : Nat
  preOpenMessages : List String
  onLog : Bool
  hasOnOpen : Bool
  url : String

/-- Construction: fresh registry (no own entries, pristine prototype),
empty buffer, no log sink; the readyState and url come from the adopted
WebSocket, hasOnOpen records whether the optional onOpen callback was
supplied. -/
def newClient (u : String) (rs : Nat) (hasCb : Bool) : WebSocketClient :=
  { events := { own := [], protoHandler := none }, readyState := rs,
    preOpenMessages := [], onLog := false, hasOnOpen := hasCb, url := u }

/-- The flush loop of the onopen handler: msg = shift(); while (msg)
send msg; msg = shift(). The shift always removes the head; the loop
guard is JS truthiness of the shifted string, so an empty string is
removed but stops the loop. Returns the remaining queue and the sends. -/
def flushQueue : List String → List String × List Obs
  | [] => ([], [])
  | m :: rest =>
    if m = "" then (rest, [])
    else
      let r := flushQueue rest
      (r.1, Obs.send m :: r.2)

/-- The ws.onopen handler: log the open line if a sink is set, invoke
the onOpen callback if one was supplied, then run the flush loop over
preOpenMessages. -/
def WebSocketClient.onopen (st : WebSocketClient) : WebSocketClient × List Obs :=
  let logActs := if st.onLog then [Obs.log ("WebSocket connection opened at " ++ st.url)] else []
  let cbActs := if st.hasOnOpen then [Obs.onOpenCb] else []
  let fl := flushQueue st.preOpenMessages
  ({ st with preOpenMessages := fl.1 }, logActs ++ cbActs ++ fl.2)

/-- The validation test of the onmessage handler on a parse success:
parsed must be truthy and parsed.event must be truthy (undefined when
absent or on a non-object, hence falsy). -/
def validParsed (parsed : JsonValue) : Bool :=
  parsed.truthy && (match getField parsed "event" with
    | some f => f.truthy
    | none => false)

/-- The ws.onmessage handler. The inbound frame is given as the outcome
of JSON.parse on the raw payload: an error carrying the raw text, or a
parsed value. Parse failure and validation failure each log (if a sink
is set) and return with no handler invoked; otherwise the event field
is coerced to a string key, the key is read on the events object
(through its prototype chain), and the dispatch line runs on whatever
that read produced. -/
def WebSocketClient.onmessage (st : WebSocketClient) (frame : Except String JsonValue) :
    WebSocketClient × List Obs :=
  match frame with
  | .error raw =>
    (st, if st.onLog then [Obs.log ("Non-JSON message received: " ++ raw)] else [])
  | .ok parsed =>
    if validParsed parsed then
      let parsedEvent := jsToString ((getField parsed "event").getD JsonValue.null)
      let dataField := getField parsed "data"
      let logActs := if st.onLog then
        [Obs.log ("Event " ++ parsedEvent ++ " received: " ++ stringifyOpt dataField)] else []
      (st, logActs ++ dispatchActs (st.events.get parsedEvent) dataField)
    else
      (st, if st.onLog then [Obs.log ("Invalid message received: " ++ jsToString parsed)] else [])

/-- sendMessage: serialize the envelope, log it if a sink is set, then
buffer if the socket is still CONNECTING and send otherwise. -/
def WebSocketClient.sendMessage (st : WebSocketClient) (event : String) (data : JsonValue) :
    WebSocketClient × List Obs :=
  let msg := envelopeOf event data
  let logActs := if st.onLog then [Obs.log ("Sending: " ++ msg)] else []
  if st.readyState = WebSocket.CONNECTING then
    ({ st with preOpenMessages := st.preOpenMessages ++ [msg] }, logActs)
  else
    (st, logActs ++ [Obs.send msg])

/-- addEventHandler: property assignment on the events object, nothing
else. -/
def WebSocketClient.addEventHandler (st : WebSocketClient) (event : String) (hid : Nat) :
    WebSocketClient × List Obs :=
  ({ st with events := st.events.assign event hid }, [])

/-- removeEventHandler: property deletion on the events object, nothing
else. -/
def WebSocketClient.removeEventHandler (st : WebSocketClient) (event : String) :
    WebSocketClient × List Obs :=
  ({ st with events := st.events.del event }, [])

/-- setLogger: installs the log sink. -/
def WebSocketClient.setLogger (st : WebSocketClient) : WebSocketClient :=
  { st with onLog := true }

/-- External stimuli of one client instance: the public methods, the
transport readiness signal (which moves readyState to OPEN and fires
the installed ws.onopen handler), and delivery of an inbound frame to
the installed ws.onmessage handler. -/
inductive Cmd where
  | sendMessage (event : String) (data : JsonValue)
  | addEventHandler (event : String) (hid : Nat)
  | removeEventHandler (event : String)
  | setLogger
  | openSignal
  | inboundFrame (frame : Except String JsonValue)

/-- One step of the trace semantics. -/
def runCmd (st : WebSocketClient) : Cmd → WebSocketClient × List Obs
  | .sendMessage e d => st.sendMessage e d
  | .addEventHandler e h => st.addEventHandler e h
  | .removeEventHandler e => st.removeEventHandler e
  | .setLogger => (st.setLogger, [])
  | .openSignal => WebSocketClient.onopen { st with readyState := WebSocket.OPEN }
  | .inboundFrame f => st.onmessage f

/-- Run a command list, accumulating the emitted actions in order. -/
def runCmds (st : WebSocketClient) : List Cmd → WebSocketClient × List Obs
  | [] => (st, [])
  | c :: rest =>
    let r := runCmd st c
    let r2 := runCmds r.1 rest
    (r2.1, r.2 ++ r2.2)

/-- The sendMessage commands of a list of (event, data) pairs. -/
def sendCmds (msgs : List (String × JsonValue)) : List Cmd :=
  msgs.map fun p => Cmd.sendMessage p.1 p.2

/-- The envelopes of a list of (event, data) pairs. -/
def envelopes (msgs : List (String × JsonValue)) : List String :=
  msgs.map fun p => envelopeOf p.1 p.2

/-! Helper lemmas about the embedding. -/

theorem envelopeOf_eq_parts (e : String) (d : JsonValue) :
    envelopeOf e d =
      "\x7b" ++ (stringifyString "event" ++ ":" ++ jsonStringify (.str e) ++ ","
        ++ (stringifyString "data" ++ ":" ++ jsonStringify d)) ++ "\x7d" := by
  simp [envelopeOf, jsonStringify, stringifyFields]

theorem envelopeOf_ne_empty (e : String) (d : JsonValue) : envelopeOf e d ≠ "" := by
  intro h
  rw [envelopeOf_eq_parts] at h
  have h2 := congrArg String.length h
  rw [String.length_append, String.length_append] at h2
  have hx : "\x7b".length = 1 := rfl
  rw [hx] at h2
  simp at h2

theorem envelopes_ne_empty (msgs : List (String × JsonValue)) :
    ∀ m ∈ envelopes msgs, m ≠ "" := by
  intro m hm
  simp only [envelopes, List.mem_map] at hm
  obtain ⟨p, _, hp⟩ := hm
  exact hp ▸ envelopeOf_ne_empty p.1 p.2

theorem flushQueue_eq_of_ne_empty :
    ∀ q : List String, (∀ m ∈ q, m ≠ "") → flushQueue q = ([], q.map Obs.send)
  | [], _ => by simp [flushQueue]
  | m :: rest, h => by
    have hm : ¬ m = "" := h m (List.mem_cons_self m rest)
    have ih := flushQueue_eq_of_ne_empty rest (fun x hx => h x (List.mem_cons_of_mem m hx))
    simp [flushQueue, hm, ih]

theorem sentMessages_append (a b : List Obs) :
    sentMessages (a ++ b) = sentMessages a ++ sentMessages b := by
  simp [sentMessages]

theorem sentMessages_map_send (q : List String) : sentMessages (q.map Obs.send) = q := by
  induction q with
  | nil => rfl
  | cons m rest ih =>
    simp only [List.map_cons, sentMessages, List.filterMap_cons] at ih ⊢
    simp [ih]

theorem sentMessages_ite_log (b : Bool) (m : String) :
    sentMessages (if b then [Obs.log m] else []) = [] := by
  cases b <;> simp [sentMessages]

theorem handlerCalls_append (a b : List Obs) :
    handlerCalls (a ++ b) = handlerCalls a ++ handlerCalls b := by
  simp [handlerCalls]

theorem handlerCalls_ite_log (b : Bool) (m : String) :
    handlerCalls (if b then [Obs.log m] else []) = [] := by
  cases b <;> simp [handlerCalls]

theorem onOpenCalls_append (a b : List Obs) :
    onOpenCalls (a ++ b) = onOpenCalls a ++ onOpenCalls b := by
  simp [onOpenCalls]

theorem onOpenCalls_ite_log (b : Bool) (m : String) :
    onOpenCalls (if b then [Obs.log m] else []) = [] := by
  cases b <;> simp [onOpenCalls]

theorem onOpenCalls_map_send (q : List String) : onOpenCalls (q.map Obs.send) = [] := by
  induction q with
  | nil => rfl
  | cons m rest ih => simp [onOpenCalls, ih]

theorem onOpenCalls_flushQueue (q : List String) : onOpenCalls (flushQueue q).2 = [] := by
  induction q with
  | nil => rfl
  | cons m rest ih =>
    simp only [flushQueue]
    split
    · rfl
    · simpa [onOpenCalls] using ih

theorem onmessage_fst (st : WebSocketClient) (f : Except String JsonValue) :
    (st.onmessage f).1 = st := by
  cases f with
  | error raw => rfl
  | ok parsed =>
    simp only [WebSocketClient.onmessage]
    split
    · split <;> rfl
    · rfl

theorem lookupHandler_insertHandler_self :
    ∀ (m : List (String × Nat)) (k : String) (v : Nat),
      lookupHandler (insertHandler m k v) k = some v
  | [], k, v => by simp [insertHandler, lookupHandler]
  | p :: rest, k, v => by
    by_cases h : p.1 = k
    · simp [insertHandler, h, lookupHandler]
    · simp [insertHandler, h, lookupHandler, lookupHandler_insertHandler_self rest k v]

theorem lookupHandler_eraseHandler_self :
    ∀ (m : List (String × Nat)) (k : String), lookupHandler (eraseHandler m k) k = none
  | [], k => by simp [eraseHandler, lookupHandler]
  | p :: rest, k => by
    by_cases h : p.1 = k
    · simp [eraseHandler, h, lookupHandler_eraseHandler_self rest k]
    · simp [eraseHandler, h, lookupHandler, lookupHandler_eraseHandler_self rest k]

theorem eraseHandler_of_lookup_none :
    ∀ (m : List (String × Nat)) (k : String), lookupHandler m k = none → eraseHandler m k = m
  | [], k, _ => rfl
  | p :: rest, k, h => by
    by_cases hp : p.1 = k
    · simp [lookupHandler, hp] at h
    · simp only [lookupHandler, if_neg hp] at h
      simp [eraseHandler, hp, eraseHandler_of_lookup_none rest k h]

theorem truthy_of_getField_some (parsed ev : JsonValue) (k : String)
    (h : getField parsed k = some ev) : parsed.truthy = true := by
  cases parsed
  case obj fields => rfl
  all_goals simp [getField] at h

theorem validParsed_of_event (parsed ev : JsonValue)
    (hev : getField parsed "event" = some ev) (ht : ev.truthy = true) :
    validParsed parsed = true := by
  simp [validParsed, truthy_of_getField_some parsed ev _ hev, hev, ht]

theorem onmessage_valid_eq (st : WebSocketClient) (parsed ev : JsonValue)
    (hev : getField parsed "event" = some ev) (ht : ev.truthy = true) :
    st.onmessage (.ok parsed) =
      (st,
        (if st.onLog then
          [Obs.log ("Event " ++ jsToString ev ++ " received: " ++ stringifyOpt (getField parsed "data"))]
         else []) ++
        dispatchActs (st.events.get (jsToString ev)) (getField parsed "data")) := by
  simp only [WebSocketClient.onmessage, validParsed_of_event parsed ev hev ht, if_true, hev,
    Option.getD_some]

theorem handlerCalls_dispatchActs_handlerFn (h : Nat) (d : Option JsonValue) :
    handlerCalls (dispatchActs (.handlerFn h) d) = [(h, d)] := rfl

theorem handlerCalls_dispatchActs_of_ne (pv : PropValue) (d : Option JsonValue)
    (h : ∀ hid : Nat, pv ≠ .handlerFn hid) :
    handlerCalls (dispatchActs pv d) = [] := by
  cases pv with
  | handlerFn hid => exact absurd rfl (h hid)
  | plainObject => rfl
  | harmlessFn => rfl
  | throwingFn => rfl
  | undefinedVal => rfl

theorem raisedErrors_dispatchActs_handlerFn (h : Nat) (d : Option JsonValue) :
    raisedErrors (dispatchActs (.handlerFn h) d) = [] := rfl

theorem raisedErrors_dispatchActs_undefinedVal (d : Option JsonValue) :
    raisedErrors (dispatchActs .undefinedVal d) = [] := rfl

theorem raisedErrors_append (a b : List Obs) :
    raisedErrors (a ++ b) = raisedErrors a ++ raisedErrors b := by
  simp [raisedErrors]

theorem raisedErrors_ite_log (b : Bool) (m : String) :
    raisedErrors (if b then [Obs.log m] else []) = [] := by
  cases b <;> simp [raisedErrors]

theorem handlerCalls_onmessage (st : WebSocketClient) (parsed ev : JsonValue)
    (hev : getField parsed "event" = some ev) (ht : ev.truthy = true) :
    handlerCalls (st.onmessage (.ok parsed)).2 =
      handlerCalls (dispatchActs (st.events.get (jsToString ev)) (getField parsed "data")) := by
  rw [onmessage_valid_eq st parsed ev hev ht]
  show handlerCalls (_ ++ _) = _
  rw [handlerCalls_append, handlerCalls_ite_log]
  rfl

theorem raisedErrors_onmessage (st : WebSocketClient) (parsed ev : JsonValue)
    (hev : getField parsed "event" = some ev) (ht : ev.truthy = true) :
    raisedErrors (st.onmessage (.ok parsed)).2 =
      raisedErrors (dispatchActs (st.events.get (jsToString ev)) (getField parsed "data")) := by
  rw [onmessage_valid_eq st parsed ev hev ht]
  show raisedErrors (_ ++ _) = _
  rw [raisedErrors_append, raisedErrors_ite_log]
  rfl

theorem get_own_some (ev : EventsObject) (k : String) (h : Nat)
    (ho : lookupHandler ev.own k = some h) : ev.get k = .handlerFn h := by
  simp [EventsObject.get, ho]

theorem get_no_own_ne_handlerFn (ev : EventsObject) (k : String)
    (hk : k ≠ "__proto__") (ho : lookupHandler ev.own k = none) :
    ∀ hid : Nat, ev.get k ≠ .handlerFn hid := by
  intro hid
  simp only [EventsObject.get, ho, if_neg hk]
  cases ev.protoHandler <;> split_ifs <;> simp

theorem get_undefinedVal_of_plain (ev : EventsObject) (k : String)
    (hp : ev.protoHandler = none) (ho : lookupHandler ev.own k = none)
    (hk : isObjProtoKey k = false) : ev.get k = .undefinedVal := by
  simp only [isObjProtoKey, Bool.or_eq_false_iff, beq_eq_false_iff_ne] at hk
  obtain ⟨⟨h1, h2⟩, h3⟩ := hk
  have h2m : ¬ k ∈ objThrowingKeys := by simpa using h2
  have h3m : ¬ k ∈ objHarmlessKeys := by simpa using h3
  simp [EventsObject.get, ho, h1, hp, h2m, h3m]

theorem lookupHandler_insertHandler_ne :
    ∀ (m : List (String × Nat)) (e k : String) (v : Nat), k ≠ e →
      lookupHandler (insertHandler m e v) k = lookupHandler m k
  | [], e, k, v, h => by
    simp [insertHandler, lookupHandler, Ne.symm h]
  | p :: rest, e, k, v, h => by
    by_cases hp : p.1 = e
    · simp only [insertHandler, if_pos hp, lookupHandler]
      rw [if_neg (Ne.symm h), if_neg (fun hc => h (hc.symm.trans hp))]
    · simp only [insertHandler, if_neg hp, lookupHandler]
      rw [lookupHandler_insertHandler_ne rest e k v h]

theorem handlerCalls_dispatch_no_own (ev : EventsObject) (k : String) (d : Option JsonValue)
    (hk : k ≠ "__proto__") (ho : lookupHandler ev.own k = none) :
    handlerCalls (dispatchActs (ev.get k) d) = [] :=
  handlerCalls_dispatchActs_of_ne _ d (get_no_own_ne_handlerFn ev k hk ho)

theorem runCmds_append :
    ∀ (a b : List Cmd) (st : WebSocketClient),
      runCmds st (a ++ b) =
        ((runCmds (runCmds st a).1 b).1, (runCmds st a).2 ++ (runCmds (runCmds st a).1 b).2)
  | [], b, st => by simp [runCmds]
  | c :: rest, b, st => by
    simp only [List.cons_append, runCmds]
    simp only [List.append_eq]
    rw [runCmds_append rest b]
    simp [List.append_assoc]

theorem runCmds_single (st : WebSocketClient) (c : Cmd) :
    runCmds st [c] = ((runCmd st c).1, (runCmd st c).2) := by
  simp [runCmds]

theorem runCmd_queue_nonempty (st : WebSocketClient) (c : Cmd)
    (h : ∀ m ∈ st.preOpenMessages, m ≠ "") :
    ∀ m ∈ (runCmd st c).1.preOpenMessages, m ≠ "" := by
  cases c with
  | sendMessage e d =>
    simp only [runCmd, WebSocketClient.sendMessage]
    split
    · intro m hm
      simp only [List.mem_append, List.mem_singleton] at hm
      rcases hm with hm | hm
      · exact h m hm
      · exact hm ▸ envelopeOf_ne_empty e d
    · exact h
  | addEventHandler e hid => exact h
  | removeEventHandler e => exact h
  | setLogger => exact h
  | openSignal =>
    simp only [runCmd, WebSocketClient.onopen]
    rw [flushQueue_eq_of_ne_empty _ (by simpa using h)]
    simp
  | inboundFrame f =>
    simp only [runCmd]
    rw [onmessage_fst]
    exact h

theorem runCmds_queue_nonempty :
    ∀ (cmds : List Cmd) (st : WebSocketClient), (∀ m ∈ st.preOpenMessages, m ≠ "") →
      ∀ m ∈ (runCmds st cmds).1.preOpenMessages, m ≠ ""
  | [], st, h => by simpa [runCmds] using h
  | c :: rest, st, h => by
    simp only [runCmds]
    exact runCmds_queue_nonempty rest _ (runCmd_queue_nonempty st c h)

theorem runCmd_open_invariant (st : WebSocketClient) (c : Cmd)
    (hq : st.preOpenMessages = []) (hr : st.readyState ≠ WebSocket.CONNECTING) :
    (runCmd st c).1.preOpenMessages = [] ∧ (runCmd st c).1.readyState ≠ WebSocket.CONNECTING := by
  cases c with
  | sendMessage e d =>
    simp only [runCmd, WebSocketClient.sendMessage, if_neg hr]
    exact ⟨hq, hr⟩
  | addEventHandler e hid => exact ⟨hq, hr⟩
  | removeEventHandler e => exact ⟨hq, hr⟩
  | setLogger => exact ⟨hq, hr⟩
  | openSignal =>
    simp only [runCmd, WebSocketClient.onopen, hq]
    simp [flushQueue, WebSocket.OPEN, WebSocket.CONNECTING]
  | inboundFrame f =>
    simp only [runCmd]
    rw [onmessage_fst]
    exact ⟨hq, hr⟩

theorem runCmds_open_invariant :
    ∀ (cmds : List Cmd) (st : WebSocketClient),
      st.preOpenMessages = [] → st.readyState ≠ WebSocket.CONNECTING →
      (runCmds st cmds).1.preOpenMessages = [] ∧
        (runCmds st cmds).1.readyState ≠ WebSocket.CONNECTING
  | [], st, hq, hr => ⟨hq, hr⟩
  | c :: rest, st, hq, hr => by
    simp only [runCmds]
    obtain ⟨hq2, hr2⟩ := runCmd_open_invariant st c hq hr
    exact runCmds_open_invariant rest _ hq2 hr2

theorem runCmds_sendCmds_connecting :
    ∀ (msgs : List (String × JsonValue)) (st : WebSocketClient),
      st.readyState = WebSocket.CONNECTING →
      (runCmds st (sendCmds msgs)).1 =
        { st with preOpenMessages := st.preOpenMessages ++ envelopes msgs } ∧
      sentMessages (runCmds st (sendCmds msgs)).2 = []
  | [], st, hr => by simp [sendCmds, runCmds, envelopes, sentMessages]
  | (e, d) :: rest, st, hr => by
    simp only [sendCmds, List.map_cons, runCmds, runCmd, WebSocketClient.sendMessage, if_pos hr]
    have ih := runCmds_sendCmds_connecting rest
      { st with preOpenMessages := st.preOpenMessages ++ [envelopeOf e d] } hr
    rw [sendCmds] at ih
    refine ⟨?_, ?_⟩
    · rw [ih.1]
      simp [envelopes, List.append_assoc]
    · rw [sentMessages_append, ih.2, sentMessages_ite_log]
      rfl

theorem sentMessages_onopen (st : WebSocketClient)
    (h : ∀ m ∈ st.preOpenMessages, m ≠ "") :
    sentMessages (st.onopen).2 = st.preOpenMessages := by
  simp only [WebSocketClient.onopen]
  rw [flushQueue_eq_of_ne_empty _ h]
  rw [sentMessages_append, sentMessages_append, sentMessages_ite_log, sentMessages_map_send]
  cases hcb : st.hasOnOpen <;> simp [sentMessages]

theorem onOpenCalls_dispatchActs (pv : PropValue) (d : Option JsonValue) :
    onOpenCalls (dispatchActs pv d) = [] := by
  cases pv <;> rfl

theorem onOpenCalls_onmessage (st : WebSocketClient) (f : Except String JsonValue) :
    onOpenCalls (st.onmessage f).2 = [] := by
  cases f with
  | error raw => exact onOpenCalls_ite_log st.onLog _
  | ok parsed =>
    simp only [WebSocketClient.onmessage]
    split
    · rw [onOpenCalls_append, onOpenCalls_ite_log, onOpenCalls_dispatchActs]
      rfl
    · exact onOpenCalls_ite_log st.onLog _

theorem onOpenCalls_sendMessage (st : WebSocketClient) (e : String) (d : JsonValue) :
    onOpenCalls (st.sendMessage e d).2 = [] := by
  simp only [WebSocketClient.sendMessage]
  split
  · exact onOpenCalls_ite_log st.onLog _
  · rw [onOpenCalls_append, onOpenCalls_ite_log]
    simp [onOpenCalls]

theorem onOpenCalls_runCmd_of_ne_open (st : WebSocketClient) (c : Cmd)
    (h : c ≠ Cmd.openSignal) : onOpenCalls (runCmd st c).2 = [] := by
  cases c with
  | sendMessage e d => exact onOpenCalls_sendMessage st e d
  | addEventHandler e hid => rfl
  | removeEventHandler e => rfl
  | setLogger => rfl
  | openSignal => exact absurd rfl h
  | inboundFrame f => exact onOpenCalls_onmessage st f

theorem onOpenCalls_runCmds_of_no_open :
    ∀ (cmds : List Cmd) (st : WebSocketClient), Cmd.openSignal ∉ cmds →
      onOpenCalls (runCmds st cmds).2 = []
  | [], _, _ => rfl
  | c :: rest, st, h => by
    simp only [runCmds]
    rw [onOpenCalls_append,
      onOpenCalls_runCmd_of_ne_open st c (fun hc => h (hc ▸ List.mem_cons_self c rest)),
      onOpenCalls_runCmds_of_no_open rest _ (fun hr => h (List.mem_cons_of_mem c hr))]
    rfl

/-! The claims. -/

/-- C1: for every sequence of sendMessage calls made on a client whose
socket is still CONNECTING and whose buffer is empty, no transport send
occurs before the readiness signal, and upon the readiness signal every
buffered serialized envelope is transmitted exactly once, in the order
the sendMessage calls were made. -/
theorem sendMessage_buffered_then_flushed_in_order
    (st : WebSocketClient) (msgs : List (String × JsonValue))
    (hr : st.readyState = WebSocket.CONNECTING) (hq : st.preOpenMessages = []) :
    sentMessages (runCmds st (sendCmds msgs)).2 = [] ∧
    sentMessages (runCmds st (sendCmds msgs ++ [Cmd.openSignal])).2 = envelopes msgs := by
  obtain ⟨h1, h2⟩ := runCmds_sendCmds_connecting msgs st hr
  refine ⟨h2, ?_⟩
  rw [runCmds_append, runCmds_single]
  show sentMessages ((runCmds st (sendCmds msgs)).2 ++ _) = _
  rw [sentMessages_append, h2, h1]
  simp only [runCmd]
  rw [hq]
  have h3 : ∀ m ∈ ([] : List String) ++ envelopes msgs, m ≠ "" := by
    simpa using envelopes_ne_empty msgs
  rw [sentMessages_onopen _ (by simpa using h3)]
  simp

/-- Witness for C1 at a concrete client and two buffered messages. -/
theorem sendMessage_buffered_then_flushed_in_order_witness :
    sentMessages (runCmds (newClient "u" WebSocket.CONNECTING false)
        (sendCmds [("1", .str "a"), ("2", .str "b")])).2 = [] ∧
    sentMessages (runCmds (newClient "u" WebSocket.CONNECTING false)
        (sendCmds [("1", .str "a"), ("2", .str "b")] ++ [Cmd.openSignal])).2 =
      envelopes [("1", .str "a"), ("2", .str "b")] :=
  sendMessage_buffered_then_flushed_in_order _ _ rfl rfl

/-- C2: an inbound frame that is not JSON, or parses to a value without
a truthy event field (a non-object value including null, an object with
no event field, an object with a falsy event field, an empty array, an
empty object), leaves the state unchanged and invokes no handler; the
installed handler is a total function, so it returns normally. -/
theorem malformed_frames_never_dispatch (st : WebSocketClient) :
    (∀ raw : String,
      (st.onmessage (.error raw)).1 = st ∧ handlerCalls (st.onmessage (.error raw)).2 = []) ∧
    (∀ v : JsonValue, getField v "event" = none →
      (st.onmessage (.ok v)).1 = st ∧ handlerCalls (st.onmessage (.ok v)).2 = []) ∧
    (∀ v f : JsonValue, getField v "event" = some f → f.truthy = false →
      (st.onmessage (.ok v)).1 = st ∧ handlerCalls (st.onmessage (.ok v)).2 = []) := by
  refine ⟨?_, ?_, ?_⟩
  · intro raw
    exact ⟨rfl, handlerCalls_ite_log st.onLog _⟩
  · intro v h
    have hv : validParsed v = false := by simp [validParsed, h]
    have he : st.onmessage (.ok v) =
        (st, if st.onLog then [Obs.log ("Invalid message received: " ++ jsToString v)] else []) := by
      simp [WebSocketClient.onmessage, hv]
    rw [he]
    exact ⟨rfl, handlerCalls_ite_log st.onLog _⟩
  · intro v f hev ht
    have hv : validParsed v = false := by simp [validParsed, hev, ht]
    have he : st.onmessage (.ok v) =
        (st, if st.onLog then [Obs.log ("Invalid message received: " ++ jsToString v)] else []) := by
      simp [WebSocketClient.onmessage, hv]
    rw [he]
    exact ⟨rfl, handlerCalls_ite_log st.onLog _⟩

/-- Witness for C2 at the empty-object frame. -/
theorem malformed_frames_never_dispatch_witness :
    ((newClient "u" WebSocket.OPEN false).onmessage (.ok (.obj []))).1 =
      newClient "u" WebSocket.OPEN false ∧
    handlerCalls ((newClient "u" WebSocket.OPEN false).onmessage (.ok (.obj []))).2 = [] :=
  (malformed_frames_never_dispatch (newClient "u" WebSocket.OPEN false)).2.1 (.obj []) rfl

/-- C3: sendMessage serializes the envelope; while the socket is
CONNECTING the serialized string is appended to the buffer and nothing
is sent, and in every other readyState it is sent immediately within
the same step, with no buffering. -/
theorem sendMessage_buffers_iff_connecting (st : WebSocketClient) (e : String) (d : JsonValue) :
    (st.readyState = WebSocket.CONNECTING →
      (st.sendMessage e d).1 =
        { st with preOpenMessages := st.preOpenMessages ++ [envelopeOf e d] } ∧
      sentMessages (st.sendMessage e d).2 = []) ∧
    (st.readyState ≠ WebSocket.CONNECTING →
      (st.sendMessage e d).1 = st ∧
      sentMessages (st.sendMessage e d).2 = [envelopeOf e d]) := by
  constructor
  · intro h
    simp only [WebSocketClient.sendMessage, if_pos h]
    exact ⟨trivial, sentMessages_ite_log st.onLog _⟩
  · intro h
    simp only [WebSocketClient.sendMessage, if_neg h]
    refine ⟨trivial, ?_⟩
    rw [sentMessages_append, sentMessages_ite_log]
    rfl

/-- Witness for C3 at a CONNECTING client. -/
theorem sendMessage_buffers_iff_connecting_witness :
    ((newClient "u" WebSocket.CONNECTING false).sendMessage "a" JsonValue.null).1 =
      { newClient "u" WebSocket.CONNECTING false with
          preOpenMessages :=
            (newClient "u" WebSocket.CONNECTING false).preOpenMessages
              ++ [envelopeOf "a" JsonValue.null] } ∧
    sentMessages ((newClient "u" WebSocket.CONNECTING false).sendMessage "a" JsonValue.null).2 = [] :=
  (sendMessage_buffers_iff_connecting (newClient "u" WebSocket.CONNECTING false) "a"
    JsonValue.null).1 rfl

/-- Counterexample to C4 as stated: on a fresh client with no handler
registered at all, a frame whose event is __proto__ matches no
registered name, yet the property read finds Object.prototype through
the inherited accessor, the truthy guard passes, and the dispatch call
invokes a non-callable object, raising a TypeError out of the
onmessage handler. -/
theorem dispatch_unregistered_proto_raises :
    lookupHandler (newClient "u" WebSocket.OPEN false).events.own "__proto__" = none ∧
    handlerCalls ((newClient "u" WebSocket.OPEN false).onmessage
      (.ok (.obj [("event", .str "__proto__")]))).2 = [] ∧
    raisedErrors ((newClient "u" WebSocket.OPEN false).onmessage
      (.ok (.obj [("event", .str "__proto__")]))).2 = [Obs.raise] :=
  ⟨rfl, rfl, rfl⟩

/-- C4 (amended): for an inbound frame that parses to an object with a
truthy event field, the handler registered (as an own entry) under the
string coercion of that field is invoked exactly once, with the data
field of the frame as its sole argument, and no error is raised; when
no handler is registered under that key, and the key is none of the
property names the registry inherits from Object.prototype, and no
handler was ever registered under __proto__ (which would rebind the
prototype), no handler is invoked and no error is raised; in all cases
the state is unchanged. -/
theorem dispatch_exactly_once_on_match (st : WebSocketClient) (parsed ev : JsonValue)
    (hev : getField parsed "event" = some ev) (ht : ev.truthy = true) :
    (∀ h : Nat, lookupHandler st.events.own (jsToString ev) = some h →
      handlerCalls (st.onmessage (.ok parsed)).2 = [(h, getField parsed "data")] ∧
      raisedErrors (st.onmessage (.ok parsed)).2 = []) ∧
    (st.events.protoHandler = none → lookupHandler st.events.own (jsToString ev) = none →
      isObjProtoKey (jsToString ev) = false →
      handlerCalls (st.onmessage (.ok parsed)).2 = [] ∧
      raisedErrors (st.onmessage (.ok parsed)).2 = []) ∧
    (st.onmessage (.ok parsed)).1 = st := by
  refine ⟨?_, ?_, onmessage_fst st _⟩
  · intro h hl
    have hg := get_own_some st.events _ h hl
    constructor
    · rw [handlerCalls_onmessage st parsed ev hev ht, hg]
      rfl
    · rw [raisedErrors_onmessage st parsed ev hev ht, hg]
      rfl
  · intro hp hl hk
    have hg := get_undefinedVal_of_plain st.events _ hp hl hk
    constructor
    · rw [handlerCalls_onmessage st parsed ev hev ht, hg]
      rfl
    · rw [raisedErrors_onmessage st parsed ev hev ht, hg]
      rfl

/-- Witness for C4: a registered handler fires once with the data
field and raises nothing, and an unregistered plain name is ignored. -/
theorem dispatch_exactly_once_on_match_witness :
    (handlerCalls ((((newClient "u" WebSocket.OPEN false).addEventHandler "evt" 7).1).onmessage
        (.ok (.obj [("event", .str "evt"), ("data", .str "x")]))).2 =
      [(7, getField (.obj [("event", .str "evt"), ("data", .str "x")]) "data")] ∧
     raisedErrors ((((newClient "u" WebSocket.OPEN false).addEventHandler "evt" 7).1).onmessage
        (.ok (.obj [("event", .str "evt"), ("data", .str "x")]))).2 = []) ∧
    (handlerCalls ((((newClient "u" WebSocket.OPEN false).addEventHandler "evt" 7).1).onmessage
        (.ok (.obj [("event", .str "other")]))).2 = [] ∧
     raisedErrors ((((newClient "u" WebSocket.OPEN false).addEventHandler "evt" 7).1).onmessage
        (.ok (.obj [("event", .str "other")]))).2 = []) :=
  ⟨(dispatch_exactly_once_on_match (((newClient "u" WebSocket.OPEN false).addEventHandler
      "evt" 7).1) (.obj [("event", .str "evt"), ("data", .str "x")]) (.str "evt")
      rfl rfl).1 7 rfl,
   (dispatch_exactly_once_on_match (((newClient "u" WebSocket.OPEN false).addEventHandler
      "evt" 7).1) (.obj [("event", .str "other")]) (.str "other")
      rfl rfl).2.1 rfl rfl rfl⟩

/-- C5: on the readiness signal the client emits, in this order, the
open log line (when a sink is set), the onOpen callback invocation
(when one was supplied), and then the buffered sends in FIFO order; no
command other than the readiness signal ever invokes the onOpen
callback, and one readiness signal invokes it exactly once when it was
supplied. -/
theorem readiness_sequence_order :
    (∀ st : WebSocketClient, (∀ m ∈ st.preOpenMessages, m ≠ "") →
      (runCmd st Cmd.openSignal).2 =
        (if st.onLog then [Obs.log ("WebSocket connection opened at " ++ st.url)] else []) ++
        (if st.hasOnOpen then [Obs.onOpenCb] else []) ++
        st.preOpenMessages.map Obs.send) ∧
    (∀ (st : WebSocketClient) (cmds : List Cmd), Cmd.openSignal ∉ cmds →
      onOpenCalls (runCmds st cmds).2 = []) ∧
    (∀ st : WebSocketClient, st.hasOnOpen = true →
      onOpenCalls (runCmd st Cmd.openSignal).2 = [Obs.onOpenCb]) := by
  refine ⟨?_, ?_, ?_⟩
  · intro st h
    simp only [runCmd, WebSocketClient.onopen]
    rw [flushQueue_eq_of_ne_empty _ (by simpa using h)]
  · intro st cmds h
    exact onOpenCalls_runCmds_of_no_open cmds st h
  · intro st h
    simp only [runCmd, WebSocketClient.onopen]
    rw [onOpenCalls_append, onOpenCalls_append, onOpenCalls_ite_log, onOpenCalls_flushQueue]
    simp [h, onOpenCalls]

/-- Witness for C5: a client constructed with an onOpen callback sees
it exactly once on the readiness signal. -/
theorem readiness_sequence_order_witness :
    onOpenCalls (runCmd (newClient "u" WebSocket.CONNECTING true) Cmd.openSignal).2 =
      [Obs.onOpenCb] :=
  readiness_sequence_order.2.2 (newClient "u" WebSocket.CONNECTING true) rfl

/-- Counterexample to C6 as stated: registering twice under the name
__proto__ succeeds, but the registrations have an observable effect
beyond the registry mapping for that name: an inbound frame for the
unrelated name call was silently ignored before them and raises a
TypeError after them, because the assignments ran the inherited
accessor, rebound the prototype of the events object to the handler
function, and made Function.prototype.call reachable. -/
theorem addEventHandler_proto_observable_effect :
    raisedErrors ((newClient "u" WebSocket.OPEN false).onmessage
      (.ok (.obj [("event", .str "call")]))).2 = [] ∧
    raisedErrors (((((newClient "u" WebSocket.OPEN false).addEventHandler "__proto__"
        1).1.addEventHandler "__proto__" 2).1).onmessage
      (.ok (.obj [("event", .str "call")]))).2 = [Obs.raise] :=
  ⟨rfl, rfl⟩

/-- C6 (amended): for an event name other than __proto__, registering a
second handler replaces the first: the registry afterwards maps the
name to the second handler as an own entry, both registrations emit no
observable action and change nothing besides that one registry entry
(readyState, buffer, log flag, the prototype of the events object and
every other own entry are untouched), and a subsequent matching
inbound frame invokes the second handler exactly once and the first
one never. -/
theorem addEventHandler_last_write_wins (st : WebSocketClient) (e : String) (h1 h2 : Nat)
    (parsed ev : JsonValue) (hne : e ≠ "__proto__") :
    (st.addEventHandler e h1).2 = [] ∧
    ((st.addEventHandler e h1).1.addEventHandler e h2).2 = [] ∧
    lookupHandler ((st.addEventHandler e h1).1.addEventHandler e h2).1.events.own e = some h2 ∧
    ((st.addEventHandler e h1).1.addEventHandler e h2).1.readyState = st.readyState ∧
    ((st.addEventHandler e h1).1.addEventHandler e h2).1.preOpenMessages = st.preOpenMessages ∧
    ((st.addEventHandler e h1).1.addEventHandler e h2).1.onLog = st.onLog ∧
    ((st.addEventHandler e h1).1.addEventHandler e h2).1.events.protoHandler =
      st.events.protoHandler ∧
    (∀ k : String, k ≠ e →
      lookupHandler ((st.addEventHandler e h1).1.addEventHandler e h2).1.events.own k =
        lookupHandler st.events.own k) ∧
    (getField parsed "event" = some ev → ev.truthy = true → jsToString ev = e →
      handlerCalls (((st.addEventHandler e h1).1.addEventHandler e h2).1.onmessage
        (.ok parsed)).2 = [(h2, getField parsed "data")]) := by
  have hst : ((st.addEventHandler e h1).1.addEventHandler e h2).1.events =
      { st.events with own := insertHandler (insertHandler st.events.own e h1) e h2 } := by
    simp [WebSocketClient.addEventHandler, EventsObject.assign, hne]
  refine ⟨rfl, rfl, ?_, rfl, rfl, rfl, ?_, ?_, ?_⟩
  · rw [hst]
    exact lookupHandler_insertHandler_self _ e h2
  · rw [hst]
  · intro k hk
    rw [hst]
    show lookupHandler (insertHandler (insertHandler st.events.own e h1) e h2) k = _
    rw [lookupHandler_insertHandler_ne _ e k h2 hk, lookupHandler_insertHandler_ne _ e k h1 hk]
  · intro hev ht he
    rw [handlerCalls_onmessage _ parsed ev hev ht, he]
    have hg : (((st.addEventHandler e h1).1.addEventHandler e h2).1.events).get e =
        .handlerFn h2 := by
      apply get_own_some
      rw [hst]
      exact lookupHandler_insertHandler_self _ e h2
    rw [hg]
    rfl

/-- Witness for C6: after two registrations for the same ordinary
name, a matching frame invokes the second handler. -/
theorem addEventHandler_last_write_wins_witness :
    handlerCalls ((((newClient "u" WebSocket.OPEN false).addEventHandler "e" 1).1.addEventHandler
        "e" 2).1.onmessage (.ok (.obj [("event", .str "e"), ("data", .null)]))).2 =
      [(2, getField (.obj [("event", .str "e"), ("data", .null)]) "data")] :=
  (addEventHandler_last_write_wins (newClient "u" WebSocket.OPEN false) "e" 1 2
    (.obj [("event", .str "e"), ("data", .null)]) (.str "e")
    (by decide)).2.2.2.2.2.2.2.2 rfl rfl rfl

/-- Counterexample to C7 as stated: registering under __proto__
rebinds the prototype instead of creating an own entry, so the delete
in removeEventHandler removes nothing, and after the removal a frame
for __proto__ still reaches the handler through the inherited accessor
and invokes it. -/
theorem removeEventHandler_proto_still_fires :
    handlerCalls (((((newClient "u" WebSocket.OPEN false).addEventHandler "__proto__"
        5).1.removeEventHandler "__proto__").1).onmessage
      (.ok (.obj [("event", .str "__proto__")]))).2 = [(5, none)] :=
  rfl

/-- C7 (amended): after removeEventHandler the registry has no own
entry for the name, and for a name other than __proto__ (the one name
whose registration is not stored as an own entry) a subsequent
matching inbound frame invokes no handler; the call emits no
observable action, and removing a name with no own entry leaves the
whole state unchanged. -/
theorem removeEventHandler_removes_and_noop_when_absent (st : WebSocketClient) (e : String)
    (parsed ev : JsonValue) :
    (st.removeEventHandler e).2 = [] ∧
    lookupHandler (st.removeEventHandler e).1.events.own e = none ∧
    (e ≠ "__proto__" → getField parsed "event" = some ev → ev.truthy = true →
      jsToString ev = e →
      handlerCalls ((st.removeEventHandler e).1.onmessage (.ok parsed)).2 = []) ∧
    (lookupHandler st.events.own e = none → (st.removeEventHandler e).1 = st) := by
  refine ⟨rfl, ?_, ?_, ?_⟩
  · exact lookupHandler_eraseHandler_self st.events.own e
  · intro hne hev ht he
    rw [handlerCalls_onmessage _ parsed ev hev ht, he]
    exact handlerCalls_dispatch_no_own _ e _ hne
      (lookupHandler_eraseHandler_self st.events.own e)
  · intro h
    simp only [WebSocketClient.removeEventHandler, EventsObject.del,
      eraseHandler_of_lookup_none st.events.own e h]

/-- Witness for C7: after registering and removing a handler under an
ordinary name, a matching frame invokes nothing. -/
theorem removeEventHandler_removes_witness :
    handlerCalls ((((newClient "u" WebSocket.OPEN false).addEventHandler "e"
        1).1.removeEventHandler "e").1.onmessage (.ok (.obj [("event", .str "e")]))).2 = [] :=
  (removeEventHandler_removes_and_noop_when_absent
    (((newClient "u" WebSocket.OPEN false).addEventHandler "e" 1).1) "e"
    (.obj [("event", .str "e")]) (.str "e")).2.2.1 (by decide) rfl rfl rfl

/-- C8: every envelope sendMessage builds is the JSON serialization of
an object with exactly the two fields event and data, in that order,
and on the concrete input of the spec scenario it is exactly the
expected string. -/
theorem envelope_exact_shape (e : String) (d : JsonValue) :
    envelopeOf e d =
      "\x7b\"event\":" ++ stringifyString e ++ ",\"data\":" ++ jsonStringify d ++ "\x7d" ∧
    envelopeOf "1" (.str "a") = "\x7b\"event\":\"1\",\"data\":\"a\"\x7d" := by
  constructor
  · rw [envelopeOf_eq_parts]
    have h1 : jsonStringify (.str e) = stringifyString e := by simp [jsonStringify]
    rw [h1]
    simp only [String.append_assoc]
    rfl
  · rfl

/-- C9: once the readiness signal has fired, the pre-open buffer is
empty, and it stays empty over every later command: nothing ever
appends to it again, so any later drain drains nothing. -/
theorem queue_empty_after_open_forever (st : WebSocketClient) (pre post : List Cmd)
    (hq : ∀ m ∈ st.preOpenMessages, m ≠ "") :
    (runCmd (runCmds st pre).1 Cmd.openSignal).1.preOpenMessages = [] ∧
    (runCmds (runCmd (runCmds st pre).1 Cmd.openSignal).1 post).1.preOpenMessages = [] := by
  have h1 := runCmds_queue_nonempty pre st hq
  have h2 : (runCmd (runCmds st pre).1 Cmd.openSignal).1.preOpenMessages = [] := by
    simp only [runCmd, WebSocketClient.onopen]
    rw [flushQueue_eq_of_ne_empty _ (by simpa using h1)]
  refine ⟨h2, ?_⟩
  have h3 : (runCmd (runCmds st pre).1 Cmd.openSignal).1.readyState ≠ WebSocket.CONNECTING := by
    simp [runCmd, WebSocketClient.onopen, WebSocket.OPEN, WebSocket.CONNECTING]
  exact (runCmds_open_invariant post _ h2 h3).1

/-- Witness for C9: a buffered message is flushed by the readiness
signal and a later send does not repopulate the buffer. -/
theorem queue_empty_after_open_forever_witness :
    (runCmd (runCmds (newClient "u" WebSocket.CONNECTING false)
        (sendCmds [("1", .str "a")])).1 Cmd.openSignal).1.preOpenMessages = [] ∧
    (runCmds (runCmd (runCmds (newClient "u" WebSocket.CONNECTING false)
        (sendCmds [("1", .str "a")])).1 Cmd.openSignal).1
      [Cmd.sendMessage "2" JsonValue.null]).1.preOpenMessages = [] :=
  queue_empty_after_open_forever (newClient "u" WebSocket.CONNECTING false)
    (sendCmds [("1", .str "a")]) [Cmd.sendMessage "2" JsonValue.null] (by simp [newClient])

/-- C10: the flush loop terminates having transmitted every queued
entry, in order, whenever every queued string is nonempty; and every
queue state reachable from a fresh client satisfies that precondition,
because entries are only ever JSON-serialized envelopes, which are
never empty. -/
theorem flush_loop_drains_nonempty_queue :
    (∀ q : List String, (∀ m ∈ q, m ≠ "") → flushQueue q = ([], q.map Obs.send)) ∧
    (∀ (u : String) (rs : Nat) (cb : Bool) (cmds : List Cmd),
      ∀ m ∈ (runCmds (newClient u rs cb) cmds).1.preOpenMessages, m ≠ "") := by
  refine ⟨flushQueue_eq_of_ne_empty, ?_⟩
  intro u rs cb cmds
  exact runCmds_queue_nonempty cmds _ (by simp [newClient])

/-- Witness for C10: the flush loop fully drains a queue holding one
concrete envelope. -/
theorem flush_loop_drains_nonempty_queue_witness :
    flushQueue [envelopeOf "1" (.str "a")] = ([], [Obs.send (envelopeOf "1" (.str "a"))]) :=
  flush_loop_drains_nonempty_queue.1 [envelopeOf "1" (.str "a")]
    (by
      intro m hm
      rw [List.mem_singleton] at hm
      exact hm ▸ envelopeOf_ne_empty "1" (.str "a"))
